import Mathlib

/-!
The SQLean loader shim of lsqlite3 (`src/sqlean_loader.c`).

The repository consists of one C function, `luaopen_lsqlite3`, which

1. calls `sqlite3_auto_extension((void*)sqlite3_sqlean_init)` and drops the status code, then
2. returns `luaopen_lsqlite3_original(L)`.

Both callees are only *declared* in this repository (the first by `sqlite3.h`, the second at
line 33 of the source file), so the embedding takes their behaviour as a parameter (`Env`):
a callee is a function from the process state to a returned `int` and a new process state.
The shim itself is embedded over a `Machine` that carries the process state together with the
trace of outbound calls the shim has issued, so that the number, order and arguments of the
calls can be stated. A callee is taken to return to the shim; a Lua error that unwinds through
the shim is not part of the model.
-/

namespace SqleanLoader

/-! ## Data model -/

/-- Function pointers that can be handed to the engine. The shim passes exactly one of them, the
address of the linker symbol `sqlite3_sqlean_init` (declared at line 30 of the source); every
other address is `other a`. -/
inductive FnPtr where
  | sqlite3_sqlean_init : FnPtr
  | other (addr : Nat) : FnPtr
  deriving DecidableEq

/-- The context handle `lua_State *L`: an address handed over by the host runtime. -/
abbrev lua_State := Nat

/-- Process-wide state seen by the callees: the engine's global auto-extension list and
everything else (`rest`: the Lua states, the remaining engine globals, ...). -/
structure World (ρ : Type) where
  autoext : List FnPtr
  rest : ρ
  deriving DecidableEq

/-- Behaviour of the two functions the shim calls but does not define. Each maps the state in
which it is entered to the `int` it returns and the state it leaves. -/
structure Env (ρ : Type) where
  sqlite3_auto_extension : FnPtr → World ρ → Int × World ρ
  luaopen_lsqlite3_original : lua_State → World ρ → Int × World ρ

/-- An outbound call of the shim, with its argument. -/
inductive Call where
  | sqlite3_auto_extension (xEntryPoint : FnPtr) : Call
  | luaopen_lsqlite3_original (L : lua_State) : Call
  deriving DecidableEq

/-- One entry of the call trace: the call and the state in which the callee was entered. -/
structure Event (ρ : Type) where
  call : Call
  pre : World ρ
  deriving DecidableEq

/-- Process state plus the trace of the shim's outbound calls, oldest first. -/
structure Machine (ρ : Type) where
  world : World ρ
  trace : List (Event ρ)
  deriving DecidableEq

/-- A machine that has issued no call yet. -/
def Machine.boot {ρ : Type} (w : World ρ) : Machine ρ :=
  { world := w, trace := [] }

/-! ## The calls and the shim -/

/-- The call `sqlite3_auto_extension(x)` as issued from the shim: the callee runs on the current
state, and the call is appended to the trace. -/
def Env.call_sqlite3_auto_extension {ρ : Type} (env : Env ρ) (x : FnPtr) (m : Machine ρ) :
    Int × Machine ρ :=
  let r := env.sqlite3_auto_extension x m.world
  (r.1, { world := r.2,
          trace := m.trace ++ [{ call := Call.sqlite3_auto_extension x, pre := m.world }] })

/-- The call `luaopen_lsqlite3_original(L)` as issued from the shim. -/
def Env.call_luaopen_lsqlite3_original {ρ : Type} (env : Env ρ) (L : lua_State) (m : Machine ρ) :
    Int × Machine ρ :=
  let r := env.luaopen_lsqlite3_original L m.world
  (r.1, { world := r.2,
          trace := m.trace ++ [{ call := Call.luaopen_lsqlite3_original L, pre := m.world }] })

/-- Embedding of `luaopen_lsqlite3` (lines 40-49): line 45 issues the registration call and
discards its `int`; line 48 returns what the original entry point returns. -/
def luaopen_lsqlite3 {ρ : Type} (env : Env ρ) (L : lua_State) (m : Machine ρ) :
    Int × Machine ρ :=
  let m1 := (env.call_sqlite3_auto_extension FnPtr.sqlite3_sqlean_init m).2
  env.call_luaopen_lsqlite3_original L m1

/-- Several loads in one process, one per handle of the list, in order (`require` run by
several runtime instances). Returns the values returned, oldest first, and the final machine. -/
def loads {ρ : Type} (env : Env ρ) : List lua_State → Machine ρ → List Int × Machine ρ
  | [], m => ([], m)
  | L :: Ls, m =>
    let r := luaopen_lsqlite3 env L m
    let rs := loads env Ls r.2
    (r.1 :: rs.1, rs.2)

/-! ## Observations on a trace -/

/-- Is the call a registration call to the engine? -/
def Call.isRegistration : Call → Bool
  | Call.sqlite3_auto_extension _ => true
  | Call.luaopen_lsqlite3_original _ => false

/-- Is the call a call of the original entry point? -/
def Call.isDelegation : Call → Bool
  | Call.sqlite3_auto_extension _ => false
  | Call.luaopen_lsqlite3_original _ => true

/-- The registration calls of a trace, in order. -/
def registrations {ρ : Type} (t : List (Event ρ)) : List Call :=
  (t.map Event.call).filter Call.isRegistration

/-- The calls of the original entry point in a trace, in order. -/
def delegations {ρ : Type} (t : List (Event ρ)) : List Call :=
  (t.map Event.call).filter Call.isDelegation

/-- The auto-extension lists that the original entry point found on entry, one per call. -/
def observedByOriginal {ρ : Type} (t : List (Event ρ)) : List (List FnPtr) :=
  (t.filter (fun e => e.call.isDelegation)).map (fun e => e.pre.autoext)

/-- The state in which the original entry point is entered: the one the registration call of
line 45 leaves. -/
def afterRegistration {ρ : Type} (env : Env ρ) (w : World ρ) : World ρ :=
  (env.sqlite3_auto_extension FnPtr.sqlite3_sqlean_init w).2

/-! ## Vocabulary of the specification -/

/-- Spec-side reading of "the callback is appended once": a list with `x` registered. An entry
that is present is left alone, one that is absent is appended. -/
def registerOnce (x : FnPtr) (l : List FnPtr) : List FnPtr :=
  if x ∈ l then l else l ++ [x]

/-- Spec-side reading of "the initial state with `x` registered": only the registry differs. -/
def registered {ρ : Type} (x : FnPtr) (w : World ρ) : World ρ :=
  { w with autoext := registerOnce x w.autoext }

/-- Engine contract: the registration primitive appends an absent callback and is a no-op on the
registry for one that is already there. -/
def Env.AppendsOnce {ρ : Type} (env : Env ρ) : Prop :=
  ∀ x w, (env.sqlite3_auto_extension x w).2.autoext = registerOnce x w.autoext

/-- Contract on the original entry point: it leaves the auto-extension list as it found it. -/
def Env.OriginalKeepsRegistry {ρ : Type} (env : Env ρ) : Prop :=
  ∀ L w, (env.luaopen_lsqlite3_original L w).2.autoext = w.autoext

/-! ## Example environments

Concrete behaviours of the two callees, used to evaluate the shim. `rest` is a counter here. -/

/-- An engine whose registration always succeeds (status 0) and only touches the registry, with an
original entry point that returns `v` and bumps the counter. -/
def plainEnv (v : Int) : Env Nat :=
  { sqlite3_auto_extension := fun x w => (0, registered x w)
    luaopen_lsqlite3_original := fun _ w => (v, { w with rest := w.rest + 1 }) }

/-- An engine whose registration fails (status 7, out of memory) and registers nothing, with an
original entry point that returns `v` and changes nothing. -/
def failingRegistration (v : Int) : Env Nat :=
  { sqlite3_auto_extension := fun _ w => (7, w)
    luaopen_lsqlite3_original := fun _ w => (v, w) }

/-- An engine whose registration primitive first initialises the library (recorded by setting the
counter to 1) and then registers the callback, with an original entry point that returns 1. -/
def autoinitEnv : Env Nat :=
  { sqlite3_auto_extension := fun x w => (0, { autoext := registerOnce x w.autoext, rest := 1 })
    luaopen_lsqlite3_original := fun _ w => (1, w) }

/-- The empty process state: no auto-extension registered, counter 0. -/
def freshWorld : World Nat :=
  { autoext := [], rest := 0 }

/-- A process state in which another extension (at address 3) is registered already. -/
def seededWorld : World Nat :=
  { autoext := [FnPtr.other 3], rest := 0 }

/-! ## Basic facts about one run of the shim -/

/-- The value the shim returns, for any machine. -/
theorem luaopen_lsqlite3_ret {ρ : Type} (env : Env ρ) (L : lua_State) (m : Machine ρ) :
    (luaopen_lsqlite3 env L m).1
      = (env.luaopen_lsqlite3_original L (afterRegistration env m.world)).1 := rfl

/-- The state the shim leaves, for any machine. -/
theorem luaopen_lsqlite3_world {ρ : Type} (env : Env ρ) (L : lua_State) (m : Machine ρ) :
    (luaopen_lsqlite3 env L m).2.world
      = (env.luaopen_lsqlite3_original L (afterRegistration env m.world)).2 := rfl

/-- The shim appends two events to the trace: the registration call entered in the current state,
then the delegated call entered in the state the registration left. -/
theorem luaopen_lsqlite3_trace {ρ : Type} (env : Env ρ) (L : lua_State) (m : Machine ρ) :
    (luaopen_lsqlite3 env L m).2.trace
      = m.trace ++
        [{ call := Call.sqlite3_auto_extension FnPtr.sqlite3_sqlean_init, pre := m.world },
         { call := Call.luaopen_lsqlite3_original L, pre := afterRegistration env m.world }] := by
  simp [luaopen_lsqlite3, Env.call_sqlite3_auto_extension, Env.call_luaopen_lsqlite3_original,
    afterRegistration]

/-- Registration calls of a concatenated trace. -/
theorem registrations_append {ρ : Type} (s t : List (Event ρ)) :
    registrations (s ++ t) = registrations s ++ registrations t := by
  simp [registrations]

/-- Delegated calls of a concatenated trace. -/
theorem delegations_append {ρ : Type} (s t : List (Event ρ)) :
    delegations (s ++ t) = delegations s ++ delegations t := by
  simp [delegations]

/-- Registries observed by the original over a concatenated trace. -/
theorem observedByOriginal_append {ρ : Type} (s t : List (Event ρ)) :
    observedByOriginal (s ++ t) = observedByOriginal s ++ observedByOriginal t := by
  simp [observedByOriginal]

/-! ## The return value -/

/-- C1: for every handle, state and behaviour of the two callees, the value `luaopen_lsqlite3`
returns is the value `luaopen_lsqlite3_original` returns on the state the registration call
left. -/
theorem C1_return_value_is_the_delegates {ρ : Type} (env : Env ρ) (L : lua_State)
    (m : Machine ρ) :
    (luaopen_lsqlite3 env L m).1
      = (env.luaopen_lsqlite3_original L
          (env.sqlite3_auto_extension FnPtr.sqlite3_sqlean_init m.world).2).1 :=
  luaopen_lsqlite3_ret env L m

/-! ## Number and arguments of the outbound calls -/

/-- C3: one call of `luaopen_lsqlite3` adds exactly one registration call to the trace, and its
argument is `sqlite3_sqlean_init`, whatever the handle, the state and the callees are. -/
theorem C3_exactly_one_registration_call {ρ : Type} (env : Env ρ) (L : lua_State)
    (m : Machine ρ) (w : World ρ) :
    registrations (luaopen_lsqlite3 env L m).2.trace
        = registrations m.trace ++ [Call.sqlite3_auto_extension FnPtr.sqlite3_sqlean_init]
      ∧ registrations (luaopen_lsqlite3 env L (Machine.boot w)).2.trace
        = [Call.sqlite3_auto_extension FnPtr.sqlite3_sqlean_init] := by
  simp [luaopen_lsqlite3_trace, registrations, Call.isRegistration, Machine.boot]

/-- C7: one call of `luaopen_lsqlite3` adds exactly one call of `luaopen_lsqlite3_original` to the
trace, and its argument is the handle `L` the shim received. -/
theorem C7_original_called_once_with_same_handle {ρ : Type} (env : Env ρ) (L : lua_State)
    (m : Machine ρ) (w : World ρ) :
    delegations (luaopen_lsqlite3 env L m).2.trace
        = delegations m.trace ++ [Call.luaopen_lsqlite3_original L]
      ∧ delegations (luaopen_lsqlite3 env L (Machine.boot w)).2.trace
        = [Call.luaopen_lsqlite3_original L] := by
  simp [luaopen_lsqlite3_trace, delegations, Call.isDelegation, Machine.boot]

/-- C6: the status code of the registration call is discarded. Two engines that differ only in
the status codes `st` and `st'` their registration returns give the same run of the shim; the
original entry point is still called, once, and its return value is the shim's. -/
theorem C6_registration_status_is_discarded {ρ : Type} (reg : FnPtr → World ρ → World ρ)
    (orig : lua_State → World ρ → Int × World ρ) (st st' : FnPtr → World ρ → Int)
    (L : lua_State) (m : Machine ρ) :
    luaopen_lsqlite3 { sqlite3_auto_extension := fun x w => (st x w, reg x w)
                       luaopen_lsqlite3_original := orig } L m
        = luaopen_lsqlite3 { sqlite3_auto_extension := fun x w => (st' x w, reg x w)
                             luaopen_lsqlite3_original := orig } L m
      ∧ (luaopen_lsqlite3 { sqlite3_auto_extension := fun x w => (st x w, reg x w)
                            luaopen_lsqlite3_original := orig } L m).1
        = (orig L (reg FnPtr.sqlite3_sqlean_init m.world)).1
      ∧ delegations (luaopen_lsqlite3 { sqlite3_auto_extension := fun x w => (st x w, reg x w)
                                        luaopen_lsqlite3_original := orig } L m).2.trace
        = delegations m.trace ++ [Call.luaopen_lsqlite3_original L] := by
  refine ⟨rfl, rfl, ?_⟩
  simp [luaopen_lsqlite3_trace, delegations, Call.isDelegation]

/-! ## Ordering -/

/-- C2, as stated, fails when the registration call fails: with an engine that reports status 7
and registers nothing, the original entry point is entered with an empty registry. -/
theorem C2_counterexample :
    observedByOriginal (luaopen_lsqlite3 (failingRegistration 1) 5 (Machine.boot freshWorld)).2.trace
        = [[]]
      ∧ ¬ ∀ l ∈ observedByOriginal
              (luaopen_lsqlite3 (failingRegistration 1) 5 (Machine.boot freshWorld)).2.trace,
            FnPtr.sqlite3_sqlean_init ∈ l := by
  have h : observedByOriginal
      (luaopen_lsqlite3 (failingRegistration 1) 5 (Machine.boot freshWorld)).2.trace = [[]] := by
    decide
  refine ⟨h, ?_⟩
  rw [h]
  simp

/-- C2 (amended): for every behaviour of the callees the run of the shim consists of the
registration call, entered in the initial state, followed by the call of the original entry
point, entered in the state the registration call left, and nothing else. The registry the
original finds on entry is therefore the one the registration call left, and it contains
`sqlite3_sqlean_init` exactly when the registration call put it there. -/
theorem C2_registration_precedes_delegation {ρ : Type} (env : Env ρ) (L : lua_State)
    (w : World ρ) :
    (luaopen_lsqlite3 env L (Machine.boot w)).2.trace
        = [{ call := Call.sqlite3_auto_extension FnPtr.sqlite3_sqlean_init, pre := w },
           { call := Call.luaopen_lsqlite3_original L, pre := afterRegistration env w }]
      ∧ observedByOriginal (luaopen_lsqlite3 env L (Machine.boot w)).2.trace
        = [(afterRegistration env w).autoext]
      ∧ ((∀ l ∈ observedByOriginal (luaopen_lsqlite3 env L (Machine.boot w)).2.trace,
            FnPtr.sqlite3_sqlean_init ∈ l)
          ↔ FnPtr.sqlite3_sqlean_init ∈ (afterRegistration env w).autoext) := by
  have ht : observedByOriginal (luaopen_lsqlite3 env L (Machine.boot w)).2.trace
      = [(afterRegistration env w).autoext] := by
    simp [luaopen_lsqlite3_trace, observedByOriginal, Call.isDelegation, Machine.boot]
  refine ⟨?_, ht, ?_⟩
  · simp [luaopen_lsqlite3_trace, Machine.boot]
  · rw [ht]
    simp

/-- The amended C2 on a succeeding engine, from a state with another extension registered: the
registration lands, and the original finds the callback registered. -/
theorem C2_registration_precedes_delegation_witness :
    FnPtr.sqlite3_sqlean_init ∈ (afterRegistration (plainEnv 1) seededWorld).autoext
      ∧ ∀ l ∈ observedByOriginal
              (luaopen_lsqlite3 (plainEnv 1) 5 (Machine.boot seededWorld)).2.trace,
          FnPtr.sqlite3_sqlean_init ∈ l :=
  ⟨by decide,
    (C2_registration_precedes_delegation (plainEnv 1) 5 seededWorld).2.2.mpr (by decide)⟩

/-! ## Failure of the delegated call -/

/-- C5, as stated, fails when both calls fail (as under memory exhaustion): the original entry
point reports -1, the shim reports -1, and the registry of the resulting state does not hold
`sqlite3_sqlean_init`. -/
theorem C5_counterexample :
    ((failingRegistration (-1)).luaopen_lsqlite3_original 5
        (afterRegistration (failingRegistration (-1)) freshWorld)).1 = -1
      ∧ (luaopen_lsqlite3 (failingRegistration (-1)) 5 (Machine.boot freshWorld)).1 = -1
      ∧ FnPtr.sqlite3_sqlean_init
          ∉ (luaopen_lsqlite3 (failingRegistration (-1)) 5 (Machine.boot freshWorld)).2.world.autoext := by
  decide

/-- C5 (amended): for every behaviour of the callees the shim reports the indicator the
delegated call reports, failure or not, and rolls nothing back: its run is the registration call
followed by the delegated call, and the resulting state is the one the delegated call left.
Hence the registry of the resulting state holds `sqlite3_sqlean_init` whenever the registration
call put it there and the delegated call removed no entry it found. -/
theorem C5_failure_passes_through_without_rollback {ρ : Type} (env : Env ρ) (L : lua_State)
    (w : World ρ) :
    (luaopen_lsqlite3 env L (Machine.boot w)).1
        = (env.luaopen_lsqlite3_original L (afterRegistration env w)).1
      ∧ (luaopen_lsqlite3 env L (Machine.boot w)).2.world
          = (env.luaopen_lsqlite3_original L (afterRegistration env w)).2
      ∧ (luaopen_lsqlite3 env L (Machine.boot w)).2.trace
          = [{ call := Call.sqlite3_auto_extension FnPtr.sqlite3_sqlean_init, pre := w },
             { call := Call.luaopen_lsqlite3_original L, pre := afterRegistration env w }]
      ∧ (FnPtr.sqlite3_sqlean_init ∈ (afterRegistration env w).autoext →
          (∀ x ∈ (afterRegistration env w).autoext,
            x ∈ (env.luaopen_lsqlite3_original L (afterRegistration env w)).2.autoext) →
          FnPtr.sqlite3_sqlean_init
            ∈ (luaopen_lsqlite3 env L (Machine.boot w)).2.world.autoext) := by
  refine ⟨rfl, rfl, ?_, ?_⟩
  · simp [luaopen_lsqlite3_trace, Machine.boot]
  · intro hreg hkeep
    exact hkeep _ hreg

/-- The amended C5 on a succeeding engine with an original that reports -1, from a state with
another extension registered: -1 is reported and the callback is still registered. -/
theorem C5_failure_passes_through_without_rollback_witness :
    ((plainEnv (-1)).luaopen_lsqlite3_original 5
        (afterRegistration (plainEnv (-1)) seededWorld)).1 = -1
      ∧ (luaopen_lsqlite3 (plainEnv (-1)) 5 (Machine.boot seededWorld)).1 = -1
      ∧ FnPtr.sqlite3_sqlean_init ∈ (afterRegistration (plainEnv (-1)) seededWorld).autoext
      ∧ (∀ x ∈ (afterRegistration (plainEnv (-1)) seededWorld).autoext,
          x ∈ ((plainEnv (-1)).luaopen_lsqlite3_original 5
                (afterRegistration (plainEnv (-1)) seededWorld)).2.autoext)
      ∧ FnPtr.sqlite3_sqlean_init
          ∈ (luaopen_lsqlite3 (plainEnv (-1)) 5 (Machine.boot seededWorld)).2.world.autoext :=
  ⟨rfl, (C5_failure_passes_through_without_rollback (plainEnv (-1)) 5 seededWorld).1,
    by decide, fun _ h => h,
    (C5_failure_passes_through_without_rollback (plainEnv (-1)) 5 seededWorld).2.2.2
      (by decide) (fun _ h => h)⟩

/-! ## Frame -/

/-- C8, as stated, fails in two ways. For an engine whose registration primitive also initialises
the library, the resulting state is not the one the original entry point produces on the initial
state with the callback registered, and the registration step changes state outside the
registry. For an engine whose registration fails, the resulting state is not that one either,
as nothing was registered. -/
theorem C8_counterexample :
    (luaopen_lsqlite3 autoinitEnv 5 (Machine.boot freshWorld)).2.world
        ≠ (autoinitEnv.luaopen_lsqlite3_original 5
            (registered FnPtr.sqlite3_sqlean_init freshWorld)).2
      ∧ (afterRegistration autoinitEnv freshWorld).rest ≠ freshWorld.rest
      ∧ (luaopen_lsqlite3 (failingRegistration 1) 5 (Machine.boot freshWorld)).2.world
          ≠ ((failingRegistration 1).luaopen_lsqlite3_original 5
              (registered FnPtr.sqlite3_sqlean_init freshWorld)).2 := by
  decide

/-- C8 (amended): for every behaviour of the callees the shim has no effect of its own beyond
issuing the registration call: its run is the registration call followed by the delegated call,
and the resulting state is the one the original entry point produces on the state the
registration call left. Whenever the registration call did nothing but register the callback,
that is the state the original produces on the initial state with `sqlite3_sqlean_init`
registered, no entry that was in the registry is removed and nothing outside the registry
changes. -/
theorem C8_no_effect_beyond_registration {ρ : Type} (env : Env ρ) (L : lua_State)
    (w : World ρ) :
    (luaopen_lsqlite3 env L (Machine.boot w)).2.trace
        = [{ call := Call.sqlite3_auto_extension FnPtr.sqlite3_sqlean_init, pre := w },
           { call := Call.luaopen_lsqlite3_original L, pre := afterRegistration env w }]
      ∧ (luaopen_lsqlite3 env L (Machine.boot w)).2.world
          = (env.luaopen_lsqlite3_original L (afterRegistration env w)).2
      ∧ (afterRegistration env w = registered FnPtr.sqlite3_sqlean_init w →
          (luaopen_lsqlite3 env L (Machine.boot w)).2.world
              = (env.luaopen_lsqlite3_original L (registered FnPtr.sqlite3_sqlean_init w)).2
            ∧ (∀ x ∈ w.autoext, x ∈ (afterRegistration env w).autoext)
            ∧ (afterRegistration env w).rest = w.rest) := by
  refine ⟨?_, rfl, ?_⟩
  · simp [luaopen_lsqlite3_trace, Machine.boot]
  · intro hw
    refine ⟨?_, ?_, ?_⟩
    · rw [luaopen_lsqlite3_world]
      show (env.luaopen_lsqlite3_original L (afterRegistration env w)).2 = _
      rw [hw]
    · intro x hx
      rw [hw]
      unfold registered registerOnce
      by_cases hmem : FnPtr.sqlite3_sqlean_init ∈ w.autoext
      · simpa [hmem] using hx
      · simp [hmem, hx]
    · rw [hw]
      rfl

/-- The amended C8 on an engine that only registers, from a state with another extension
registered: that extension is still registered when the original is entered. -/
theorem C8_no_effect_beyond_registration_witness :
    afterRegistration (plainEnv 1) seededWorld
        = registered FnPtr.sqlite3_sqlean_init seededWorld
      ∧ (luaopen_lsqlite3 (plainEnv 1) 5 (Machine.boot seededWorld)).2.world
          = ((plainEnv 1).luaopen_lsqlite3_original 5
              (registered FnPtr.sqlite3_sqlean_init seededWorld)).2
      ∧ (∀ x ∈ seededWorld.autoext, x ∈ (afterRegistration (plainEnv 1) seededWorld).autoext)
      ∧ (afterRegistration (plainEnv 1) seededWorld).rest = seededWorld.rest
      ∧ FnPtr.other 3 ∈ (afterRegistration (plainEnv 1) seededWorld).autoext :=
  ⟨rfl,
    ((C8_no_effect_beyond_registration (plainEnv 1) 5 seededWorld).2.2 rfl).1,
    ((C8_no_effect_beyond_registration (plainEnv 1) 5 seededWorld).2.2 rfl).2.1,
    ((C8_no_effect_beyond_registration (plainEnv 1) 5 seededWorld).2.2 rfl).2.2,
    ((C8_no_effect_beyond_registration (plainEnv 1) 5 seededWorld).2.2 rfl).2.1
      (FnPtr.other 3) (by decide)⟩

/-! ## Repeated loads in one process -/

/-- Registering a callback twice is the same as registering it once. -/
theorem registerOnce_idem (x : FnPtr) (l : List FnPtr) :
    registerOnce x (registerOnce x l) = registerOnce x l := by
  unfold registerOnce
  by_cases h : x ∈ l
  · simp [h]
  · simp [h]

/-- A list that holds `x` at most once holds it exactly once after `x` is registered. -/
theorem count_registerOnce (x : FnPtr) (l : List FnPtr) (h : l.count x ≤ 1) :
    (registerOnce x l).count x = 1 := by
  unfold registerOnce
  by_cases hx : x ∈ l
  · have hpos : 0 < l.count x := List.count_pos_iff.mpr hx
    simp only [hx, if_true]
    omega
  · have h0 : l.count x = 0 := List.count_eq_zero_of_not_mem hx
    simp [hx, h0]

/-- Under the two registry contracts one load registers the callback once. -/
theorem luaopen_lsqlite3_autoext {ρ : Type} (env : Env ρ) (L : lua_State) (m : Machine ρ)
    (happ : env.AppendsOnce) (horig : env.OriginalKeepsRegistry) :
    (luaopen_lsqlite3 env L m).2.world.autoext
      = registerOnce FnPtr.sqlite3_sqlean_init m.world.autoext := by
  rw [luaopen_lsqlite3_world, horig]
  exact happ FnPtr.sqlite3_sqlean_init m.world

/-- Under the two registry contracts any positive number of loads leaves the registry that one
registration leaves. -/
theorem loads_autoext {ρ : Type} (env : Env ρ) (happ : env.AppendsOnce)
    (horig : env.OriginalKeepsRegistry) (Ls : List lua_State) :
    ∀ (L : lua_State) (m : Machine ρ),
      (loads env (L :: Ls) m).2.world.autoext
        = registerOnce FnPtr.sqlite3_sqlean_init m.world.autoext := by
  induction Ls with
  | nil =>
    intro L m
    exact luaopen_lsqlite3_autoext env L m happ horig
  | cons K Ks ih =>
    intro L m
    show (loads env (K :: Ks) (luaopen_lsqlite3 env L m).2).2.world.autoext = _
    rw [ih K, luaopen_lsqlite3_autoext env L m happ horig, registerOnce_idem]

/-- Every load issues one registration call, whatever the callees do. -/
theorem loads_registrations {ρ : Type} (env : Env ρ) (Ls : List lua_State) :
    ∀ m : Machine ρ,
      registrations (loads env Ls m).2.trace
        = registrations m.trace
          ++ List.replicate Ls.length (Call.sqlite3_auto_extension FnPtr.sqlite3_sqlean_init) := by
  induction Ls with
  | nil => intro m; simp [loads]
  | cons K Ks ih =>
    intro m
    show registrations (loads env Ks (luaopen_lsqlite3 env K m).2).2.trace = _
    rw [ih, luaopen_lsqlite3_trace, registrations_append]
    simp [registrations, Call.isRegistration, List.replicate_succ]

/-- After a registration the list holds `x` exactly once exactly when it held `x` at most once
before. -/
theorem count_registerOnce_eq_one_iff (x : FnPtr) (l : List FnPtr) :
    (registerOnce x l).count x = 1 ↔ l.count x ≤ 1 := by
  constructor
  · intro h
    unfold registerOnce at h
    by_cases hx : x ∈ l
    · simp only [hx, if_true] at h
      omega
    · have h0 : l.count x = 0 := List.count_eq_zero_of_not_mem hx
      omega
  · exact count_registerOnce x l

/-- C9, as stated, fails on an engine whose registration fails: that primitive is a no-op for an
already-registered callback (it is a no-op always), and after one load the registry holds
`sqlite3_sqlean_init` zero times. -/
theorem C9_counterexample :
    (∀ x w, x ∈ w.autoext → ((failingRegistration 1).sqlite3_auto_extension x w).2 = w)
      ∧ (loads (failingRegistration 1) [5] (Machine.boot freshWorld)).2.world.autoext.count
          FnPtr.sqlite3_sqlean_init = 0
      ∧ (loads (failingRegistration 1) [5] (Machine.boot freshWorld)).2.world.autoext.count
          FnPtr.sqlite3_sqlean_init ≠ 1 := by
  refine ⟨fun _ _ _ => rfl, ?_, ?_⟩ <;> decide

/-- C9 (amended): for every behaviour of the callees, `n` loads in one process issue the
registration call `n` times, once per load, all with `sqlite3_sqlean_init`. When `n >= 1`, the
registration primitive appends an absent callback and is a no-op for a registered one, and the
original entry point leaves the registry as it found it, the registry afterwards holds
`sqlite3_sqlean_init` exactly once exactly when it held it at most once beforehand (in
particular when it did not hold it). -/
theorem C9_registered_once_after_n_loads {ρ : Type} (env : Env ρ) (Ls : List lua_State)
    (w : World ρ) :
    registrations (loads env Ls (Machine.boot w)).2.trace
        = List.replicate Ls.length (Call.sqlite3_auto_extension FnPtr.sqlite3_sqlean_init)
      ∧ (1 ≤ Ls.length → env.AppendsOnce → env.OriginalKeepsRegistry →
          ((loads env Ls (Machine.boot w)).2.world.autoext.count FnPtr.sqlite3_sqlean_init = 1
            ↔ w.autoext.count FnPtr.sqlite3_sqlean_init ≤ 1)) := by
  constructor
  · rw [loads_registrations]
    simp [registrations, Machine.boot]
  · intro hn happ horig
    cases Ls with
    | nil => simp at hn
    | cons L Ks =>
      rw [loads_autoext env happ horig Ks L (Machine.boot w)]
      exact count_registerOnce_eq_one_iff _ _

/-- The amended C9 for three loads from a state with another extension registered: three
registration calls, the callback registered once. -/
theorem C9_registered_once_after_n_loads_witness :
    1 ≤ [5, 6, 7].length ∧ (plainEnv 1).AppendsOnce ∧ (plainEnv 1).OriginalKeepsRegistry
      ∧ seededWorld.autoext.count FnPtr.sqlite3_sqlean_init ≤ 1
      ∧ registrations (loads (plainEnv 1) [5, 6, 7] (Machine.boot seededWorld)).2.trace
          = List.replicate 3 (Call.sqlite3_auto_extension FnPtr.sqlite3_sqlean_init)
      ∧ (loads (plainEnv 1) [5, 6, 7] (Machine.boot seededWorld)).2.world.autoext.count
          FnPtr.sqlite3_sqlean_init = 1 :=
  ⟨by decide, fun _ _ => rfl, fun _ _ => rfl, by decide,
    (C9_registered_once_after_n_loads (plainEnv 1) [5, 6, 7] seededWorld).1,
    ((C9_registered_once_after_n_loads (plainEnv 1) [5, 6, 7] seededWorld).2 (by decide)
      (fun _ _ => rfl) (fun _ _ => rfl)).mpr (by decide)⟩

end SqleanLoader
